import Mathlib

/-!
Shallow embedding of the donation backend worker (src/index.ts).

The worker has two handlers:
- `createCheckoutSession`: validates a donation request and POSTs a
  checkout-session creation request to the payment provider.
- `handleStripeWebhook`: verifies a webhook signature, deduplicates the
  event against a key-value store, and on a first-seen paid session runs
  `handleSuccessfulPayment` (payment-intent fetch, message formatting,
  Telegram dispatch) before writing the idempotency marker.

External runtime primitives (HMAC verification, JSON parsing, outbound
fetches, date formatting) are modelled as oracle parameters; the handler
logic itself is translated line by line from the source.  JavaScript
numbers are modelled as exact rationals.  Effects (key-value reads and
writes, notification dispatches, payment-intent fetches) are recorded in
an ordered trace, and the key-value store is an association list.
-/

namespace Donation

/-- A parsed webhook session object (`event.data.object` in the source).
Fields the handler reads; absent JSON fields are modelled with `Option`. -/
structure Session where
  id : String
  payment_status : String
  amount_total : Int
  currency : String
  created : Nat
  customer_email : Option String
  payment_intent : Option String
deriving Repr, DecidableEq

/-- A parsed webhook event envelope: `event.type` and `event.data.object`.
`session = none` models a body that parses but whose `event.data.object`
access throws (missing `data`), which only happens inside the
`checkout.session.completed` branch. -/
structure WebhookEvent where
  type : String
  session : Option Session
deriving Repr, DecidableEq

/-- A payment intent as used by the handler: its id and the
`metadata.donor_note` field when present. -/
structure PaymentIntent where
  id : String
  donor_note : Option String
deriving Repr, DecidableEq

/-- Result of the payment-intent GET in `retrievePaymentIntent`:
the fetch can throw (network error), return a non-ok status
(logged, treated as no intent), or succeed with a parsed intent. -/
inductive PIFetchResult where
  | threw
  | notOk
  | ok (pi : PaymentIntent)
deriving Repr, DecidableEq

/-- Observable side effects of one webhook request, in order. -/
inductive Eff where
  | kvGet (key : String)
  | kvPut (key : String) (value : String) (ttl : Nat)
  | notify (msg : String)
  | fetchPI (piId : String)
deriving Repr, DecidableEq

/-- Worker environment: the webhook secret, the Telegram configuration
(env vars are strings when configured; `none` models an unset variable),
and the current contents of the `DONATION_TRACKER_KV` store. -/
structure Env where
  webhookSecret : String
  telegramBotToken : Option String
  telegramChatId : Option String
  kv : List (String × String)
deriving Repr, DecidableEq

/-- Oracle for the runtime primitives the webhook path calls:
HMAC verification, `JSON.parse` (with `event.data.object` access;
`none` models a throw), the payment-intent fetch, whether the Telegram
API answers with a success status, fault flags for the two key-value
operations, and `toLocaleString` date rendering. -/
structure Oracle where
  hmacVerify : String → List Nat → String → Bool
  jsonParse : String → Option WebhookEvent
  fetchPI : String → PIFetchResult
  telegramOk : Bool
  kvGetOk : Bool
  kvPutOk : Bool
  formatDate : Nat → String

/-- An HTTP response together with the effect trace of the request and
the key-value store contents when the response is produced. -/
structure WebhookOutcome where
  status : Nat
  body : String
  trace : List Eff
  kv : List (String × String)
deriving Repr, DecidableEq

/-! ### Key-value store -/

/-- `env.DONATION_TRACKER_KV.get`: lookup in the association list. -/
def kvLookup (kv : List (String × String)) (key : String) : Option String :=
  match kv.find? (fun p => p.1 == key) with
  | some p => some p.2
  | none => none

/-- `env.DONATION_TRACKER_KV.put`: insert or overwrite a key. -/
def kvInsert (kv : List (String × String)) (key value : String) :
    List (String × String) :=
  (key, value) :: kv.filter (fun p => ¬ (p.1 == key))

/-! ### Signature header parsing and hex decoding -/

/-- JavaScript `parseInt(s, 16)` digit value. -/
def hexDigitVal (c : Char) : Option Nat :=
  if '0' ≤ c ∧ c ≤ '9' then some (c.toNat - 48)
  else if 'a' ≤ c ∧ c ≤ 'f' then some (c.toNat - 87)
  else if 'A' ≤ c ∧ c ≤ 'F' then some (c.toNat - 70)
  else none

/-- Greedily read hexadecimal digits; `none` when no digit is read
(`parseInt` returns `NaN` in that case). -/
def readHexDigits : List Char → Nat → Option Nat
  | [], acc => some acc
  | c :: cs, acc =>
    match hexDigitVal c with
    | some d => match readHexDigits cs (16 * acc + d) with
      | some v => some v
      | none => some (16 * acc + d)
    | none => if acc = 0 then none else some acc

/-- `parseInt(chunk, 16)` on a two-character substring: optional leading
whitespace and sign, optional `0x` prefix, then greedy hex digits;
`none` models `NaN`. -/
def parseIntHex (l : List Char) : Option Int :=
  let l := l.dropWhile (fun c => c = ' ' ∨ c = '\t' ∨ c = '\n' ∨ c = '\r')
  let (sgn, l) : Int × List Char :=
    match l with
    | '-' :: r => (-1, r)
    | '+' :: r => (1, r)
    | _ => (1, l)
  let l :=
    match l with
    | '0' :: 'x' :: r => r
    | '0' :: 'X' :: r => r
    | _ => l
  match l with
  | [] => none
  | c :: cs =>
    match hexDigitVal c with
    | none => none
    | some d =>
      match readHexDigits cs d with
      | some v => some (sgn * (v : Int))
      | none => some (sgn * (d : Int))

/-- Split a character list into chunks of two (`substring(i, i+2)` steps). -/
def chunks2 : List Char → List (List Char)
  | [] => []
  | [c] => [[c]]
  | c :: d :: rest => [c, d] :: chunks2 rest

/-- `hexToBuffer`: allocates `Uint8Array(length / 2)` — a fractional
length (odd input) throws a `RangeError`, modelled as `none`.  Each
two-character chunk goes through `parseInt(·, 16)`; `NaN` stores as 0,
other values are coerced to `Uint8` modulo 256. -/
def hexToBuffer (hexString : String) : Option (List Nat) :=
  if hexString.data.length % 2 = 1 then none
  else some ((chunks2 hexString.data).map (fun ch =>
    match parseIntHex ch with
    | some v => (v % 256).toNat
    | none => 0))

/-- JavaScript `String.prototype.split` with a one-character separator:
splits into the (possibly empty) runs between separator occurrences;
the empty string yields `[[]]`. -/
def splitOnChar (sep : Char) : List Char → List (List Char)
  | [] => [[]]
  | c :: cs =>
    if c = sep then [] :: splitOnChar sep cs
    else
      match splitOnChar sep cs with
      | [] => [[c]]
      | p :: ps => (c :: p) :: ps

/-- `parts[1]` after a `split('=')`: the second field when present
(`undefined` otherwise). -/
def fieldAfterEq (l : List Char) : Option String :=
  match (splitOnChar '=' l).get? 1 with
  | some p => some ⟨p⟩
  | none => none

/-- The destructuring of the `stripe-signature` header:
`signature.split(',')` into the first two fields, then `.split('=')[1]`
on each.  `none` models a thrown `TypeError`: a missing header
(`null.split`) or a header with no comma (`undefined.split`). -/
def parseSignatureHeader (signature : Option String) :
    Option (Option String × Option String) :=
  match signature with
  | none => none
  | some s =>
    match splitOnChar ',' s.data with
    | [] => none
    | [_] => none
    | tp :: sp :: _ =>
      some (fieldAfterEq tp, fieldAfterEq sp)

/-- A JavaScript template literal stringifies `undefined` as the text
`undefined`; the timestamp slot of the signed payload does so when the
header field had no `=`. -/
def jsToString (s : Option String) : String :=
  match s with
  | some t => t
  | none => "undefined"

/-! ### Notification message formatting -/

/-- Code points of the MarkdownV2 reserved characters in the
`escapeMarkdownV2` regex character class. -/
def reservedCodes : List Nat :=
  [95, 42, 91, 93, 40, 41, 126, 96, 62, 35, 43, 45, 61, 124, 123, 125, 46, 33]

/-- Whether a character is matched by the `escapeMarkdownV2` regex. -/
def isReservedMd (c : Char) : Bool :=
  reservedCodes.contains c.toNat

/-- `text.replace(/[...]/g, '\\$&')` on the character list: each
reserved character is replaced by a backslash followed by itself. -/
def escList : List Char → List Char
  | [] => []
  | c :: cs =>
    if isReservedMd c then '\\' :: c :: escList cs
    else c :: escList cs

/-- `escapeMarkdownV2` on strings (the non-string early return of the
source is reached only for `undefined` inputs, which the call sites
coalesce away; the string path is the one modelled). -/
def escapeMarkdownV2 (text : String) : String :=
  ⟨escList text.data⟩

/-- `toUpperCase` on one character (ASCII, the range relevant to
currency codes). -/
def jsCharUpper (c : Char) : Char :=
  if 'a' ≤ c ∧ c ≤ 'z' then Char.ofNat (c.toNat - 32) else c

/-- `String.prototype.toUpperCase`. -/
def jsToUpper (s : String) : String :=
  ⟨s.data.map jsCharUpper⟩

/-- `toLowerCase` on one character (ASCII). -/
def jsCharLower (c : Char) : Char :=
  if 'A' ≤ c ∧ c ≤ 'Z' then Char.ofNat (c.toNat + 32) else c

/-- `String.prototype.toLowerCase`. -/
def jsToLower (s : String) : String :=
  ⟨s.data.map jsCharLower⟩

/-- Truthiness of an optional environment string: an unset variable and
the empty string are falsy. -/
def truthyOS : Option String → Bool
  | none => false
  | some s => s ≠ ""

/-- Two-digit rendering of a value below 100. -/
def pad2 (n : Nat) : String :=
  if n < 10 then "0" ++ toString n else toString n

/-- `(amount_total / 100).toFixed(2)` for an integer number of minor
units: exact two-decimal rendering (for integer cent inputs of realistic
magnitude the double division and `toFixed` introduce no error). -/
def toFixed2Cents (n : Int) : String :=
  let a := n.natAbs
  let s := toString (a / 100) ++ "." ++ pad2 (a % 100)
  if n < 0 then "-" ++ s else s

/-- The 25-dash separator line of the Telegram message (each dash
escaped in the source template). -/
def dashLine : String :=
  "\\- \\- \\- \\- \\- \\- \\- \\- \\- \\- \\- \\- \\- \\- \\- \\- \\- \\- \\- \\- \\- \\- \\- \\- \\-"

/-- The `donor_note` drawn from the fetched payment intent:
`paymentIntent?.metadata?.donor_note || ''`. -/
def donorNoteOf (pi : Option PaymentIntent) : String :=
  match pi.bind (fun p => p.donor_note) with
  | some n => n
  | none => ""

/-- The fixed part of the Telegram message (the template of lines
187–192): amount fixed to two decimals, currency upper-cased, email
defaulting to a placeholder, UTC-rendered date, and payment id falling
back to the session id.  Every interpolated field goes through
`escapeMarkdownV2`. -/
def messageHeader (o : Oracle) (s : Session) (pi : Option PaymentIntent) : String :=
  let amount := toFixed2Cents s.amount_total
  let currency := jsToUpper s.currency
  let transactionDate := o.formatDate s.created
  let safeAmount := escapeMarkdownV2 amount
  let safeCurrency := escapeMarkdownV2 currency
  let safeEmail :=
    match s.customer_email with
    | some e => if escapeMarkdownV2 e = "" then "Not provided" else escapeMarkdownV2 e
    | none => "Not provided"
  let safeDate := escapeMarkdownV2 transactionDate
  let paymentId :=
    match pi with
    | some p => if p.id = "" then s.id else p.id
    | none => s.id
  let safePaymentId := escapeMarkdownV2 paymentId
  "🎉 *New Donation Received\\!* 🎉\n" ++ dashLine ++
  "\n*Amount:* " ++ safeAmount ++ " " ++ safeCurrency ++
  "\n*Donor Email:* " ++ safeEmail ++
  "\n*Time \\(UTC\\):* " ++ safeDate ++
  "\n*Payment ID:* " ++ safePaymentId

/-- The full Telegram message (lines 187–197): the header, then — only
when the donor note is non-empty — an extra `Note from Donor` line with
the escaped note, then the closing separator line. -/
def buildTelegramMessage (o : Oracle) (s : Session) (pi : Option PaymentIntent) :
    String :=
  let donorNote := donorNoteOf pi
  let withNote :=
    if donorNote ≠ "" then
      messageHeader o s pi ++ "\n*Note from Donor:* " ++ escapeMarkdownV2 donorNote
    else
      messageHeader o s pi
  withNote ++ "\n" ++ dashLine

/-! ### Webhook processing -/

/-- Result of `retrievePaymentIntent`: either the fetch threw (the
exception propagates to the webhook handler's catch) or it completed
with an optional intent; the fetch attempt is recorded when made. -/
inductive PIOutcome where
  | threw (effs : List Eff)
  | done (pi : Option PaymentIntent) (effs : List Eff)
deriving Repr, DecidableEq

/-- `retrievePaymentIntent` (lines 157–167): falsy ids (absent or empty
string) short-circuit to `null` with no fetch; otherwise a GET whose
non-ok status is logged and yields `null`, and whose network failure
throws. -/
def retrievePaymentIntent (o : Oracle) (paymentIntentId : Option String) :
    PIOutcome :=
  match paymentIntentId with
  | none => .done none []
  | some pid =>
    if pid = "" then .done none []
    else
      match o.fetchPI pid with
      | .threw => .threw [.fetchPI pid]
      | .notOk => .done none [.fetchPI pid]
      | .ok pi => .done (some pi) [.fetchPI pid]

/-- Result of `handleSuccessfulPayment`: whether it threw (only the
payment-intent fetch can throw; the Telegram send is wrapped in its own
try/catch) and the effects performed. -/
structure HSPResult where
  threw : Bool
  effs : List Eff
deriving Repr, DecidableEq

/-- `handleSuccessfulPayment` (lines 169–209): fetch the payment intent,
build the message, and — only when both Telegram secrets are configured —
attempt the send; a failed send is caught and logged, never rethrown. -/
def handleSuccessfulPayment (o : Oracle) (env : Env) (s : Session) : HSPResult :=
  match retrievePaymentIntent o s.payment_intent with
  | .threw effs => ⟨true, effs⟩
  | .done pi effs =>
    let msg := buildTelegramMessage o s pi
    if truthyOS env.telegramBotToken ∧ truthyOS env.telegramChatId then
      ⟨false, effs ++ [.notify msg]⟩
    else
      ⟨false, effs⟩

/-- Body of the plain acknowledgment `JSON.stringify({received: true})`. -/
def receivedBody : String := "\x7b\"received\":true\x7d"

/-- Body of `JSON.stringify({status: 'already_processed'})`. -/
def alreadyProcessedBody : String := "\x7b\"status\":\"already_processed\"\x7d"

/-- The catch-branch body `Webhook error: ${error.message}`; the
engine-specific message text is not modelled. -/
def webhookErrorBody : String := "Webhook error: "

/-- The marker TTL `60 * 60 * 24 * 30` seconds. -/
def markerTtl : Nat := 60 * 60 * 24 * 30

/-- The `event.type === 'checkout.session.completed'` branch of
`handleStripeWebhook` (lines 126–142) plus the final acknowledgment:
idempotency lookup, payment-status gate, `handleSuccessfulPayment`, and
finally the marker put with a 30-day TTL.  Any throw (the
`data.object` access, a key-value fault, a propagated fetch failure) is
caught by the surrounding try and yields a 400. -/
def processEvent (o : Oracle) (env : Env) (event : WebhookEvent) : WebhookOutcome :=
  if event.type = "checkout.session.completed" then
    match event.session with
    | none => ⟨400, webhookErrorBody, [], env.kv⟩
    | some session =>
      let processedKey := "processed_session_" ++ session.id
      if ¬ o.kvGetOk then
        ⟨400, webhookErrorBody, [.kvGet processedKey], env.kv⟩
      else
        match kvLookup env.kv processedKey with
        | some _ =>
          ⟨200, alreadyProcessedBody, [.kvGet processedKey], env.kv⟩
        | none =>
          if session.payment_status = "paid" then
            let h := handleSuccessfulPayment o env session
            if h.threw then
              ⟨400, webhookErrorBody, .kvGet processedKey :: h.effs, env.kv⟩
            else if ¬ o.kvPutOk then
              ⟨400, webhookErrorBody, .kvGet processedKey :: h.effs, env.kv⟩
            else
              ⟨200, receivedBody,
                .kvGet processedKey :: h.effs ++
                  [.kvPut processedKey "processed" markerTtl],
                kvInsert env.kv processedKey "processed"⟩
          else
            ⟨200, receivedBody, [.kvGet processedKey], env.kv⟩
  else
    ⟨200, receivedBody, [], env.kv⟩

/-- `handleStripeWebhook` (lines 109–147), translated branch by branch.
Signature-header destructuring, hex decoding and HMAC verification come
first and any failure there is a 400 with no effects; then the body is
parsed and the event is processed by `processEvent`. -/
def handleStripeWebhook (o : Oracle) (env : Env) (signature : Option String)
    (rawBody : String) : WebhookOutcome :=
  match parseSignatureHeader signature with
  | none => ⟨400, webhookErrorBody, [], env.kv⟩
  | some (timestamp, signedPayload) =>
    match signedPayload with
    | none => ⟨400, webhookErrorBody, [], env.kv⟩
    | some sp =>
      match hexToBuffer sp with
      | none => ⟨400, webhookErrorBody, [], env.kv⟩
      | some mac =>
        let payloadToVerify := jsToString timestamp ++ "." ++ rawBody
        if ¬ o.hmacVerify env.webhookSecret mac payloadToVerify then
          ⟨400, "Webhook signature verification failed.", [], env.kv⟩
        else
          match o.jsonParse rawBody with
          | none => ⟨400, webhookErrorBody, [], env.kv⟩
          | some event => processEvent o env event

/-- The signature-verification prefix of `handleStripeWebhook` as a
boolean: `true` exactly when the handler gets past the `!verified`
check (header destructured, MAC hex-decoded, HMAC verified). -/
def signatureVerifies (o : Oracle) (env : Env) (signature : Option String)
    (rawBody : String) : Bool :=
  match parseSignatureHeader signature with
  | none => false
  | some (timestamp, signedPayload) =>
    match signedPayload with
    | none => false
    | some sp =>
      match hexToBuffer sp with
      | none => false
      | some mac =>
        o.hmacVerify env.webhookSecret mac (jsToString timestamp ++ "." ++ rawBody)

/-! ### Checkout session creation -/

/-- A JSON value as it can appear in a parsed request-body field
(JSON has no `NaN`/`undefined`; objects and arrays are not needed by
the fields the handler reads). -/
inductive JsVal where
  | jnull
  | num (q : ℚ)
  | str (s : String)
  | jbool (b : Bool)
deriving Repr, DecidableEq

/-- JavaScript truthiness of an optional JSON field: absent, `null`,
`false`, `0` and `""` are falsy. -/
def truthy : Option JsVal → Bool
  | none => false
  | some .jnull => false
  | some (.num q) => q ≠ 0
  | some (.str s) => s ≠ ""
  | some (.jbool b) => b

/-- One decimal digit value. -/
def decDigitVal (c : Char) : Option Nat :=
  if '0' ≤ c ∧ c ≤ '9' then some (c.toNat - 48) else none

/-- Digits of a decimal string as a natural number. -/
def digitsToNat (l : List Char) : Nat :=
  l.foldl (fun a c => 10 * a + (c.toNat - 48)) 0

/-- `parseFloat` on a string: skip leading whitespace, optional sign,
then the longest prefix of the form `digits [. digits] [e [sign] digits]`
with at least one mantissa digit; `Infinity` and a digit-free prefix
give no finite value (`none` models `NaN` or an infinity).  The value is
computed exactly as a rational. -/
def parseFloatStr (s : String) : Option ℚ :=
  let l := s.data.dropWhile (fun c => c = ' ' ∨ c = '\t' ∨ c = '\n' ∨ c = '\r')
  let (sgn, l) : ℚ × List Char :=
    match l with
    | '-' :: r => (-1, r)
    | '+' :: r => (1, r)
    | _ => (1, l)
  if "Infinity".data.isPrefixOf l then none
  else
    let ip := l.takeWhile (fun c => (decDigitVal c).isSome)
    let l1 := l.drop ip.length
    let (fp, l2) :=
      match l1 with
      | '.' :: r => (r.takeWhile (fun c => (decDigitVal c).isSome),
                     r.drop (r.takeWhile (fun c => (decDigitVal c).isSome)).length)
      | _ => ([], l1)
    if ip.isEmpty ∧ fp.isEmpty then none
    else
      let mant : ℚ := (digitsToNat (ip ++ fp) : ℚ) / (10 : ℚ) ^ fp.length
      let expVal : Int :=
        match l2 with
        | 'e' :: r | 'E' :: r =>
          let (esgn, r') : Int × List Char :=
            match r with
            | '-' :: t => (-1, t)
            | '+' :: t => (1, t)
            | _ => (1, r)
          let ed := r'.takeWhile (fun c => (decDigitVal c).isSome)
          if ed.isEmpty then 0 else esgn * (digitsToNat ed : Int)
        | _ => 0
      let scaled : ℚ :=
        if 0 ≤ expVal then mant * (10 : ℚ) ^ expVal.toNat
        else mant / (10 : ℚ) ^ (-expVal).toNat
      some (sgn * scaled)

/-- `parseFloat(amount)` on the raw JSON field value: numbers round-trip
through their string rendering unchanged, strings are parsed, and
`null`/booleans stringify to digit-free text (`NaN`). -/
def parseFloatJs : Option JsVal → Option ℚ
  | some (.num q) => some q
  | some (.str s) => parseFloatStr s
  | _ => none

/-- Parsed request body of `createCheckoutSession`; each field is absent
or a JSON value. -/
structure CheckoutBody where
  amount : Option JsVal
  currency : Option JsVal
  note : Option JsVal
  successUrl : Option JsVal
  cancelUrl : Option JsVal
deriving Repr, DecidableEq

/-- The observable outbound call of `createCheckoutSession`: the POST to
the provider's session-creation endpoint, recording the computed
minor-unit amount (`none` for `NaN`), the lower-cased currency, and
the metadata note when attached. -/
inductive CheckoutEff where
  | stripePost (unitAmount : Option ℚ) (currency : String) (note : Option JsVal)
deriving Repr, DecidableEq

/-- The provider's reply as the handler consumes it: a network throw or
unparsable reply (→ the catch), a body with an `error` field (status
passed through), or a session id. -/
inductive StripeResult where
  | threw
  | errorResp (status : Nat) (msg : String)
  | okResp (id : String)
deriving Repr, DecidableEq

/-- Response and effect trace of one `createCheckoutSession` request. -/
structure CheckoutOutcome where
  status : Nat
  body : String
  effs : List CheckoutEff
deriving Repr, DecidableEq

/-- Body of the missing-fields 400 reply. -/
def missingFieldsBody : String := "\x7b\"error\":\"Missing required fields.\"\x7d"

/-- Body of the catch-all 500 reply. -/
def internalErrorBody : String := "\x7b\"error\":\"Internal server error.\"\x7d"

/-- `createCheckoutSession` (lines 50–104).  `body? = none` models
`request.json()` throwing on a malformed body (→ 500).  Validation
rejects any falsy required field with a 400 before anything is sent.
A truthy non-string currency makes `currency.toLowerCase()` throw
(→ 500, still before the outbound call).  Otherwise one POST goes out
with `parseFloat(amount) * 100` as the unit amount, and the provider's
reply is mapped to the response. -/
def createCheckoutSession (stripe : StripeResult) (body? : Option CheckoutBody) :
    CheckoutOutcome :=
  match body? with
  | none => ⟨500, internalErrorBody, []⟩
  | some b =>
    if ¬ (truthy b.amount ∧ truthy b.currency ∧ truthy b.successUrl ∧ truthy b.cancelUrl) then
      ⟨400, missingFieldsBody, []⟩
    else
      match b.currency with
      | some (.str c) =>
        let unitAmount := (parseFloatJs b.amount).map (fun q => q * 100)
        let note := if truthy b.note then b.note else none
        let post := CheckoutEff.stripePost unitAmount (jsToLower c) note
        match stripe with
        | .threw => ⟨500, internalErrorBody, [post]⟩
        | .errorResp st msg =>
          ⟨st, "\x7b\"error\":\"" ++ msg ++ "\"\x7d", [post]⟩
        | .okResp id =>
          ⟨200, "\x7b\"id\":\"" ++ id ++ "\"\x7d", [post]⟩
      | _ => ⟨500, internalErrorBody, []⟩

/-! ### Derived notions used by the statements -/

/-- Replace the key-value store contents of an environment (the store
state evolves between webhook deliveries; all other configuration is
fixed). -/
def setKv (env : Env) (kv : List (String × String)) : Env :=
  ⟨env.webhookSecret, env.telegramBotToken, env.telegramChatId, kv⟩

/-- Whether an effect is a notification dispatch attempt. -/
def isNotifyEff : Eff → Bool
  | .notify _ => true
  | _ => false

/-- Number of notification dispatch attempts in a trace. -/
def notifyCount (t : List Eff) : Nat := t.countP isNotifyEff

/-- Checker that every reserved MarkdownV2 character in a character list
is consumed as the second character of a backslash-escape pair. -/
def allReservedEscaped : List Char → Bool
  | [] => true
  | [c] => ¬ isReservedMd c
  | c :: d :: ds =>
    if isReservedMd c then false
    else if c = '\\' ∧ isReservedMd d then allReservedEscaped ds
    else allReservedEscaped (d :: ds)

/-- Remove the escaping that `escList` introduces: a backslash followed
by a reserved character collapses to the bare character. -/
def unescList : List Char → List Char
  | [] => []
  | [c] => [c]
  | c :: d :: ds =>
    if c = '\\' ∧ isReservedMd d then d :: unescList ds
    else c :: unescList (d :: ds)

/-- `unescList` on strings. -/
def unescapeMarkdownV2 (s : String) : String :=
  ⟨unescList s.data⟩

/-! ### Lemmas about the escaping -/

theorem isReservedMd_backslash : isReservedMd '\\' = false := by decide

theorem escList_nil_iff (l : List Char) : escList l = [] ↔ l = [] := by
  cases l with
  | nil => simp [escList]
  | cons c cs =>
    simp only [escList]
    by_cases h : isReservedMd c <;> simp [h]

theorem escList_head_not_reserved (l : List Char) :
    escList l = [] ∨ ∃ d ds, escList l = d :: ds ∧ isReservedMd d = false := by
  cases l with
  | nil => exact Or.inl rfl
  | cons c cs =>
    right
    by_cases h : isReservedMd c
    · exact ⟨'\\', c :: escList cs, by simp [escList, h], isReservedMd_backslash⟩
    · exact ⟨c, escList cs, by simp [escList, h], by simp [h]⟩

theorem unescList_escList (l : List Char) : unescList (escList l) = l := by
  induction l with
  | nil => simp [escList, unescList]
  | cons c cs ih =>
    by_cases h : isReservedMd c
    · rcases escList_head_not_reserved cs with h0 | ⟨d, ds, he, hd⟩
      · rw [escList_nil_iff] at h0
        subst h0
        simp [escList, unescList, h]
      · rw [show escList (c :: cs) = '\\' :: c :: escList cs by simp [escList, h],
          he, unescList]
        rw [← he, ih]
        simp [h]
    · by_cases hb : c = '\\'
      · subst hb
        rcases escList_head_not_reserved cs with h0 | ⟨d, ds, he, hd⟩
        · rw [escList_nil_iff] at h0
          subst h0
          simp [escList, unescList, h]
        · rw [show escList ('\\' :: cs) = '\\' :: escList cs by simp [escList, h],
            he, unescList]
          rw [← he, ih]
          simp [hd]
      · rcases escList_head_not_reserved cs with h0 | ⟨d, ds, he, hd⟩
        · rw [escList_nil_iff] at h0
          subst h0
          simp [escList, unescList, h]
        · rw [show escList (c :: cs) = c :: escList cs by simp [escList, h],
            he, unescList]
          rw [← he, ih]
          simp [hb]

theorem allReservedEscaped_escList (l : List Char) :
    allReservedEscaped (escList l) = true := by
  induction l with
  | nil => simp [escList, allReservedEscaped]
  | cons c cs ih =>
    by_cases h : isReservedMd c
    · rw [show escList (c :: cs) = '\\' :: c :: escList cs by simp [escList, h]]
      rcases escList_head_not_reserved cs with h0 | ⟨d, ds, he, hd⟩
      · rw [escList_nil_iff] at h0
        subst h0
        simp [escList, allReservedEscaped, h, isReservedMd_backslash]
      · rw [he, allReservedEscaped]
        rw [← he, ih]
        simp [h, isReservedMd_backslash]
    · by_cases hb : c = '\\'
      · subst hb
        rcases escList_head_not_reserved cs with h0 | ⟨d, ds, he, hd⟩
        · rw [escList_nil_iff] at h0
          subst h0
          simp [escList, allReservedEscaped, h]
        · rw [show escList ('\\' :: cs) = '\\' :: escList cs by simp [escList, h],
            he, allReservedEscaped]
          rw [← he, ih]
          simp [hd, isReservedMd_backslash]
      · rcases escList_head_not_reserved cs with h0 | ⟨d, ds, he, hd⟩
        · rw [escList_nil_iff] at h0
          subst h0
          simp [escList, allReservedEscaped, h]
        · rw [show escList (c :: cs) = c :: escList cs by simp [escList, h],
            he, allReservedEscaped]
          rw [← he, ih]
          simp [h, hb]

/-! ### Lemmas about the notification flow and the verification prefix -/

theorem handleSuccessfulPayment_no_kvPut (o : Oracle) (env : Env) (s : Session)
    (k v : String) (t : Nat) :
    Eff.kvPut k v t ∉ (handleSuccessfulPayment o env s).effs := by
  unfold handleSuccessfulPayment retrievePaymentIntent
  cases s.payment_intent with
  | none =>
    by_cases hc : truthyOS env.telegramBotToken = true ∧ truthyOS env.telegramChatId = true <;>
      simp [hc]
  | some pid =>
    by_cases hp : pid = "" <;>
      cases hf : o.fetchPI pid <;>
      by_cases hc : truthyOS env.telegramBotToken = true ∧ truthyOS env.telegramChatId = true <;>
      simp [hp, hf, hc]

theorem retrievePaymentIntent_not_threw (o : Oracle) (pid? : Option String)
    (hf : ∀ pid, o.fetchPI pid ≠ .threw) (effs : List Eff) :
    retrievePaymentIntent o pid? ≠ .threw effs := by
  unfold retrievePaymentIntent
  cases pid? with
  | none => simp
  | some pid =>
    by_cases hp : pid = ""
    · simp [hp]
    · cases hfp : o.fetchPI pid with
      | threw => exact absurd hfp (hf pid)
      | notOk => simp [hp, hfp]
      | ok pi => simp [hp, hfp]

theorem handleSuccessfulPayment_threw_false (o : Oracle) (env : Env) (s : Session)
    (hf : ∀ pid, o.fetchPI pid ≠ .threw) :
    (handleSuccessfulPayment o env s).threw = false := by
  unfold handleSuccessfulPayment
  cases hr : retrievePaymentIntent o s.payment_intent with
  | threw effs => exact absurd hr (retrievePaymentIntent_not_threw o _ hf effs)
  | done pi effs =>
    by_cases hc : truthyOS env.telegramBotToken = true ∧ truthyOS env.telegramChatId = true <;>
      simp [hc]

theorem handleSuccessfulPayment_notifyCount (o : Oracle) (env : Env) (s : Session)
    (hc : truthyOS env.telegramBotToken = true ∧ truthyOS env.telegramChatId = true)
    (hf : ∀ pid, o.fetchPI pid ≠ .threw) :
    notifyCount (handleSuccessfulPayment o env s).effs = 1 := by
  unfold handleSuccessfulPayment retrievePaymentIntent
  cases s.payment_intent with
  | none => simp [hc, notifyCount, isNotifyEff]
  | some pid =>
    by_cases hp : pid = ""
    · simp [hp, hc, notifyCount, isNotifyEff]
    · cases hfp : o.fetchPI pid with
      | threw => exact absurd hfp (hf pid)
      | notOk => simp [hp, hfp, hc, notifyCount, isNotifyEff]
      | ok pi => simp [hp, hfp, hc, notifyCount, isNotifyEff]

theorem signatureVerifies_true_iff (o : Oracle) (env : Env) (sig : Option String)
    (rawBody : String) :
    signatureVerifies o env sig rawBody = true ↔
      ∃ ts sp mac, parseSignatureHeader sig = some (ts, some sp) ∧
        hexToBuffer sp = some mac ∧
        o.hmacVerify env.webhookSecret mac (jsToString ts ++ "." ++ rawBody) = true := by
  unfold signatureVerifies
  cases hp : parseSignatureHeader sig with
  | none => simp
  | some p =>
    obtain ⟨ts, sp?⟩ := p
    cases sp? with
    | none => simp
    | some sp =>
      cases hb : hexToBuffer sp with
      | none => simp [hb]
      | some mac =>
        simp only [hb]
        constructor
        · intro h
          exact ⟨ts, sp, mac, rfl, hb, h⟩
        · rintro ⟨ts1, sp1, mac1, heq, hx, h⟩
          simp only [Option.some.injEq, Prod.mk.injEq] at heq
          obtain ⟨rfl, rfl⟩ := heq
          rw [hb] at hx
          injection hx with hx2
          subst hx2
          exact h

theorem kvLookup_kvInsert_same (kv : List (String × String)) (k v : String) :
    kvLookup (kvInsert kv k v) k = some v := by
  simp [kvLookup, kvInsert]

theorem handleStripeWebhook_verified (o : Oracle) (env : Env) (sig : Option String)
    (rawBody : String) (ev : WebhookEvent)
    (hver : signatureVerifies o env sig rawBody = true)
    (hparse : o.jsonParse rawBody = some ev) :
    handleStripeWebhook o env sig rawBody = processEvent o env ev := by
  obtain ⟨ts, sp, mac, h1, h2, h3⟩ := (signatureVerifies_true_iff o env sig rawBody).mp hver
  unfold handleStripeWebhook
  simp [h1, h2, h3, hparse]

theorem handleStripeWebhook_unverified (o : Oracle) (env : Env) (sig : Option String)
    (rawBody : String)
    (hver : signatureVerifies o env sig rawBody = false) :
    (handleStripeWebhook o env sig rawBody).status = 400 ∧
    (handleStripeWebhook o env sig rawBody).trace = [] ∧
    (handleStripeWebhook o env sig rawBody).kv = env.kv := by
  unfold handleStripeWebhook
  cases h1 : parseSignatureHeader sig with
  | none => simp
  | some p =>
    obtain ⟨ts, sp?⟩ := p
    cases sp? with
    | none => simp
    | some sp =>
      cases h2 : hexToBuffer sp with
      | none => simp [h2]
      | some mac =>
        cases hv : o.hmacVerify env.webhookSecret mac (jsToString ts ++ "." ++ rawBody) with
        | false => simp [h2, hv]
        | true =>
          have hvt : signatureVerifies o env sig rawBody = true :=
            (signatureVerifies_true_iff o env sig rawBody).mpr ⟨ts, sp, mac, h1, h2, hv⟩
          rw [hvt] at hver
          exact absurd hver (by simp)

theorem processEvent_paid_fresh (o : Oracle) (env : Env) (s : Session)
    (hget : o.kvGetOk = true) (hput : o.kvPutOk = true)
    (hfresh : kvLookup env.kv ("processed_session_" ++ s.id) = none)
    (hpaid : s.payment_status = "paid")
    (hthrew : (handleSuccessfulPayment o env s).threw = false) :
    processEvent o env ⟨"checkout.session.completed", some s⟩ =
      ⟨200, receivedBody,
        Eff.kvGet ("processed_session_" ++ s.id) ::
          (handleSuccessfulPayment o env s).effs ++
          [Eff.kvPut ("processed_session_" ++ s.id) "processed" markerTtl],
        kvInsert env.kv ("processed_session_" ++ s.id) "processed"⟩ := by
  unfold processEvent
  simp [hget, hput, hfresh, hpaid, hthrew]

theorem processEvent_no_put_unless_200 (o : Oracle) (env : Env) (ev : WebhookEvent) :
    (processEvent o env ev).status = 200 ∨
    ((processEvent o env ev).kv = env.kv ∧
     ∀ k v t, Eff.kvPut k v t ∉ (processEvent o env ev).trace) := by
  unfold processEvent
  by_cases ht : ev.type = "checkout.session.completed"
  · cases hs : ev.session with
    | none => right; simp [ht, hs]
    | some s =>
      by_cases hget : o.kvGetOk = true
      · cases hl : kvLookup env.kv ("processed_session_" ++ s.id) with
        | some w => left; simp [ht, hs, hget, hl]
        | none =>
          by_cases hpaid : s.payment_status = "paid"
          · by_cases hthrew : (handleSuccessfulPayment o env s).threw = true
            · right
              refine ⟨by simp [ht, hs, hget, hl, hpaid, hthrew], ?_⟩
              intro k v t hmem
              simp [ht, hs, hget, hl, hpaid, hthrew] at hmem
              exact handleSuccessfulPayment_no_kvPut o env s k v t hmem
            · by_cases hput : o.kvPutOk = true
              · left; simp [ht, hs, hget, hl, hpaid, hthrew, hput]
              · right
                refine ⟨by simp [ht, hs, hget, hl, hpaid, hthrew, hput], ?_⟩
                intro k v t hmem
                simp [ht, hs, hget, hl, hpaid, hthrew, hput] at hmem
                exact handleSuccessfulPayment_no_kvPut o env s k v t hmem
          · left; simp [ht, hs, hget, hl, hpaid]
      · right; simp [ht, hs, hget]
  · right; simp [ht]

theorem processEvent_put_mem (o : Oracle) (env : Env) (ev : WebhookEvent)
    (k v : String) (t : Nat)
    (hmem : Eff.kvPut k v t ∈ (processEvent o env ev).trace) :
    ∃ s, ev = ⟨"checkout.session.completed", some s⟩ ∧
      s.payment_status = "paid" ∧
      kvLookup env.kv ("processed_session_" ++ s.id) = none ∧
      o.kvPutOk = true ∧
      k = "processed_session_" ++ s.id ∧ v = "processed" ∧ t = markerTtl ∧
      (handleSuccessfulPayment o env s).threw = false ∧
      (processEvent o env ev).trace =
        Eff.kvGet k :: (handleSuccessfulPayment o env s).effs ++ [Eff.kvPut k v t] := by
  unfold processEvent at hmem ⊢
  by_cases ht : ev.type = "checkout.session.completed"
  · cases hs : ev.session with
    | none => simp [ht, hs] at hmem
    | some s =>
      by_cases hget : o.kvGetOk = true
      · cases hl : kvLookup env.kv ("processed_session_" ++ s.id) with
        | some w => simp [ht, hs, hget, hl] at hmem
        | none =>
          by_cases hpaid : s.payment_status = "paid"
          · by_cases hthrew : (handleSuccessfulPayment o env s).threw = true
            · exfalso
              simp [ht, hs, hget, hl, hpaid, hthrew] at hmem
              exact handleSuccessfulPayment_no_kvPut o env s k v t hmem
            · by_cases hput : o.kvPutOk = true
              · simp [ht, hs, hget, hl, hpaid, hthrew, hput] at hmem
                rcases hmem with hmem | hmem
                · exact absurd hmem (handleSuccessfulPayment_no_kvPut o env s k v t)
                · obtain ⟨hk, hv, htt⟩ := hmem
                  subst hk; subst hv; subst htt
                  refine ⟨s, ?_, hpaid, hl, hput, rfl, rfl, rfl,
                    by simp [hthrew], ?_⟩
                  · cases ev with
                    | mk tp ss => simp at ht hs; rw [ht, hs]
                  · simp [ht, hs, hget, hl, hpaid, hthrew, hput]
              · exfalso
                simp [ht, hs, hget, hl, hpaid, hthrew, hput] at hmem
                exact handleSuccessfulPayment_no_kvPut o env s k v t hmem
          · simp [ht, hs, hget, hl, hpaid] at hmem
      · simp [ht, hs, hget] at hmem
  · simp [ht] at hmem

/-! ### Concrete sample data for closed instances -/

/-- A paid sample session. -/
def sampleSession : Session :=
  ⟨"cs_1", "paid", 2550, "usd", 1700000000, some "donor@example.com", some "pi_1"⟩

/-- A sample session whose payment status is still pending. -/
def sampleUnpaidSession : Session :=
  ⟨"cs_2", "unpaid", 2550, "usd", 1700000000, none, none⟩

/-- A concrete oracle: the MAC verifies, the body `"other"` parses to
an uninteresting event kind, the body `"unpaid"` to a pending-payment
completed-checkout event, and every other body to a paid one; the
payment-intent fetch succeeds with a donor note, the Telegram API
answers ok, and the store does not fault. -/
def sampleOracle : Oracle :=
  ⟨fun _ _ _ => true,
   fun raw =>
     if raw = "other" then some ⟨"invoice.paid", none⟩
     else if raw = "unpaid" then some ⟨"checkout.session.completed", some sampleUnpaidSession⟩
     else some ⟨"checkout.session.completed", some sampleSession⟩,
   fun _ => .ok ⟨"pi_1", some "see you *soon*!"⟩,
   true, true, true,
   fun _ => "11/14/2023, 10:13:20 PM"⟩

/-- A concrete environment with both Telegram secrets configured and an
empty store. -/
def sampleEnv : Env := ⟨"whsec_1", some "bot_token_1", some "chat_1", []⟩

/-- A well-formed signature header for the sample requests. -/
def sampleSig : Option String := some "t=1700000001,v1=00ff"

theorem buildTelegramMessage_with_note (o : Oracle) (s : Session)
    (pi : Option PaymentIntent) (hne : donorNoteOf pi ≠ "") :
    buildTelegramMessage o s pi =
      (messageHeader o s pi ++ "\n*Note from Donor:* ") ++
        escapeMarkdownV2 (donorNoteOf pi) ++ ("\n" ++ dashLine) := by
  unfold buildTelegramMessage
  simp [hne, String.append_assoc]

/-! ## The claims -/

/-- C2: a webhook request whose signature header does not verify —
missing or malformed header, undecodable MAC, or HMAC mismatch over
`timestamp.rawBody` — always gets HTTP 400, and no idempotency lookup,
no marker write and no notification dispatch happens (the trace is
empty and the store is unchanged), for any body content. -/
theorem webhook_invalid_signature_always_400 (o : Oracle) (env : Env)
    (sig : Option String) (rawBody : String)
    (hver : signatureVerifies o env sig rawBody = false) :
    (handleStripeWebhook o env sig rawBody).status = 400 ∧
    (handleStripeWebhook o env sig rawBody).trace = [] ∧
    (handleStripeWebhook o env sig rawBody).kv = env.kv :=
  handleStripeWebhook_unverified o env sig rawBody hver

/-- Witness for C2: a request with a missing signature header. -/
theorem webhook_invalid_signature_always_400_witness :
    signatureVerifies sampleOracle sampleEnv none "anybody" = false ∧
    ((handleStripeWebhook sampleOracle sampleEnv none "anybody").status = 400 ∧
     (handleStripeWebhook sampleOracle sampleEnv none "anybody").trace = [] ∧
     (handleStripeWebhook sampleOracle sampleEnv none "anybody").kv = sampleEnv.kv) :=
  ⟨by decide,
   webhook_invalid_signature_always_400 sampleOracle sampleEnv none "anybody" (by decide)⟩

/-- C7: a verified webhook event of any kind other than
checkout.session.completed is acknowledged with HTTP 200
`received: true` and triggers nothing else: no key-value read or write
and no notification dispatch (empty trace, store unchanged). -/
theorem other_event_kinds_acknowledged_no_action (o : Oracle) (env : Env)
    (sig : Option String) (rawBody : String) (ev : WebhookEvent)
    (hver : signatureVerifies o env sig rawBody = true)
    (hparse : o.jsonParse rawBody = some ev)
    (htype : ev.type ≠ "checkout.session.completed") :
    handleStripeWebhook o env sig rawBody = ⟨200, receivedBody, [], env.kv⟩ := by
  rw [handleStripeWebhook_verified o env sig rawBody ev hver hparse]
  unfold processEvent
  simp [htype]

/-- Witness for C7: a verified `invoice.paid` event. -/
theorem other_event_kinds_acknowledged_no_action_witness :
    signatureVerifies sampleOracle sampleEnv sampleSig "other" = true ∧
    sampleOracle.jsonParse "other" = some ⟨"invoice.paid", none⟩ ∧
    handleStripeWebhook sampleOracle sampleEnv sampleSig "other" =
      ⟨200, receivedBody, [], sampleEnv.kv⟩ :=
  ⟨by decide, by decide,
   other_event_kinds_acknowledged_no_action sampleOracle sampleEnv sampleSig "other"
     ⟨"invoice.paid", none⟩ (by decide) (by decide) (by decide)⟩

/-- C6: a verified checkout.session.completed event whose payment
status is not "paid" never writes a marker and never dispatches a
notification, and leaves the store unchanged; when the lookup does not
fault and no marker exists it returns the plain HTTP 200
`received: true` acknowledgment with only the idempotency lookup in
its trace. -/
theorem unpaid_session_no_marker_no_notification (o : Oracle) (env : Env)
    (sig : Option String) (rawBody : String) (s : Session)
    (hver : signatureVerifies o env sig rawBody = true)
    (hparse : o.jsonParse rawBody = some ⟨"checkout.session.completed", some s⟩)
    (hnp : s.payment_status ≠ "paid") :
    ((∀ m, Eff.notify m ∉ (handleStripeWebhook o env sig rawBody).trace) ∧
     (∀ k v t, Eff.kvPut k v t ∉ (handleStripeWebhook o env sig rawBody).trace) ∧
     (handleStripeWebhook o env sig rawBody).kv = env.kv) ∧
    (o.kvGetOk = true → kvLookup env.kv ("processed_session_" ++ s.id) = none →
      handleStripeWebhook o env sig rawBody =
        ⟨200, receivedBody, [Eff.kvGet ("processed_session_" ++ s.id)], env.kv⟩) := by
  rw [handleStripeWebhook_verified o env sig rawBody _ hver hparse]
  constructor
  · unfold processEvent
    by_cases hget : o.kvGetOk = true
    · cases hl : kvLookup env.kv ("processed_session_" ++ s.id) with
      | some w => simp [hget, hl]
      | none => simp [hget, hl, hnp]
    · simp [hget]
  · intro hget hl
    unfold processEvent
    simp [hget, hl, hnp]

/-- Witness for C6: a verified completed event whose session is still
unpaid, against an empty store. -/
theorem unpaid_session_no_marker_no_notification_witness :
    signatureVerifies sampleOracle sampleEnv sampleSig "unpaid" = true ∧
    sampleOracle.jsonParse "unpaid" =
      some ⟨"checkout.session.completed", some sampleUnpaidSession⟩ ∧
    sampleUnpaidSession.payment_status ≠ "paid" ∧
    (((∀ m, Eff.notify m ∉ (handleStripeWebhook sampleOracle sampleEnv sampleSig "unpaid").trace) ∧
      (∀ k v t, Eff.kvPut k v t ∉ (handleStripeWebhook sampleOracle sampleEnv sampleSig "unpaid").trace) ∧
      (handleStripeWebhook sampleOracle sampleEnv sampleSig "unpaid").kv = sampleEnv.kv) ∧
     (sampleOracle.kvGetOk = true →
      kvLookup sampleEnv.kv ("processed_session_" ++ sampleUnpaidSession.id) = none →
      handleStripeWebhook sampleOracle sampleEnv sampleSig "unpaid" =
        ⟨200, receivedBody, [Eff.kvGet ("processed_session_" ++ sampleUnpaidSession.id)],
          sampleEnv.kv⟩)) :=
  ⟨by decide, by decide, by decide,
   unpaid_session_no_marker_no_notification sampleOracle sampleEnv sampleSig "unpaid"
     sampleUnpaidSession (by decide) (by decide) (by decide)⟩

/-- C10: whenever webhook processing answers HTTP 400 — signature
failure, body-parse failure, a thrown fetch error, or a store fault —
no idempotency marker has been written during that request: the store
is unchanged and the trace holds no put. -/
theorem webhook_400_leaves_store_unchanged (o : Oracle) (env : Env)
    (sig : Option String) (rawBody : String)
    (h : (handleStripeWebhook o env sig rawBody).status = 400) :
    (handleStripeWebhook o env sig rawBody).kv = env.kv ∧
    ∀ k v t, Eff.kvPut k v t ∉ (handleStripeWebhook o env sig rawBody).trace := by
  cases hv : signatureVerifies o env sig rawBody with
  | false =>
    obtain ⟨_, ht, hkv⟩ := handleStripeWebhook_unverified o env sig rawBody hv
    rw [ht, hkv]
    exact ⟨rfl, by simp⟩
  | true =>
    cases hp : o.jsonParse rawBody with
    | none =>
      obtain ⟨ts, sp, mac, h1, h2, h3⟩ := (signatureVerifies_true_iff o env sig rawBody).mp hv
      unfold handleStripeWebhook
      simp [h1, h2, h3, hp]
    | some ev =>
      rw [handleStripeWebhook_verified o env sig rawBody ev hv hp] at h ⊢
      rcases processEvent_no_put_unless_200 o env ev with h200 | hok
      · rw [h] at h200
        exact absurd h200 (by simp)
      · exact hok

/-- Witness for C10: the missing-header request answers 400 and leaves
the store unchanged. -/
theorem webhook_400_leaves_store_unchanged_witness :
    (handleStripeWebhook sampleOracle sampleEnv none "x").status = 400 ∧
    ((handleStripeWebhook sampleOracle sampleEnv none "x").kv = sampleEnv.kv ∧
     ∀ k v t, Eff.kvPut k v t ∉ (handleStripeWebhook sampleOracle sampleEnv none "x").trace) :=
  ⟨by decide,
   webhook_400_leaves_store_unchanged sampleOracle sampleEnv none "x" (by decide)⟩

/-- C1: for a fixed session id, delivering the same verified
checkout.session.completed / paid event twice sequentially — the second
delivery observing the store left by the first — dispatches exactly one
notification: the first delivery's trace has one dispatch, and the
second returns HTTP 200 with the already_processed body, with only the
idempotency lookup in its trace (no dispatch, no marker write) and the
store unchanged. -/
theorem webhook_double_delivery_single_notification
    (o : Oracle) (env : Env) (sig : Option String) (rawBody : String) (s : Session)
    (hver : signatureVerifies o env sig rawBody = true)
    (hparse : o.jsonParse rawBody = some ⟨"checkout.session.completed", some s⟩)
    (hpaid : s.payment_status = "paid")
    (hfresh : kvLookup env.kv ("processed_session_" ++ s.id) = none)
    (hget : o.kvGetOk = true) (hput : o.kvPutOk = true)
    (hconf : truthyOS env.telegramBotToken = true ∧ truthyOS env.telegramChatId = true)
    (hfetch : ∀ pid, o.fetchPI pid ≠ .threw) :
    notifyCount (handleStripeWebhook o env sig rawBody).trace = 1 ∧
    handleStripeWebhook o (setKv env (handleStripeWebhook o env sig rawBody).kv) sig rawBody =
      ⟨200, alreadyProcessedBody, [Eff.kvGet ("processed_session_" ++ s.id)],
        (handleStripeWebhook o env sig rawBody).kv⟩ := by
  have hthrew := handleSuccessfulPayment_threw_false o env s hfetch
  have hr1 : handleStripeWebhook o env sig rawBody =
      ⟨200, receivedBody,
        Eff.kvGet ("processed_session_" ++ s.id) ::
          (handleSuccessfulPayment o env s).effs ++
          [Eff.kvPut ("processed_session_" ++ s.id) "processed" markerTtl],
        kvInsert env.kv ("processed_session_" ++ s.id) "processed"⟩ := by
    rw [handleStripeWebhook_verified o env sig rawBody _ hver hparse]
    exact processEvent_paid_fresh o env s hget hput hfresh hpaid hthrew
  constructor
  · rw [hr1]
    have hn := handleSuccessfulPayment_notifyCount o env s hconf hfetch
    simp only [notifyCount] at hn ⊢
    simp [List.countP_cons, List.countP_append, isNotifyEff, hn]
  · rw [hr1]
    rw [handleStripeWebhook_verified o
      (setKv env (kvInsert env.kv ("processed_session_" ++ s.id) "processed"))
      sig rawBody _ hver hparse]
    unfold processEvent
    simp [setKv, hget, kvLookup_kvInsert_same]

/-- Witness for C1 at the sample paid event against an empty store. -/
theorem webhook_double_delivery_single_notification_witness :
    (signatureVerifies sampleOracle sampleEnv sampleSig "paid_event" = true ∧
     sampleOracle.jsonParse "paid_event" =
       some ⟨"checkout.session.completed", some sampleSession⟩ ∧
     sampleSession.payment_status = "paid" ∧
     kvLookup sampleEnv.kv ("processed_session_" ++ sampleSession.id) = none) ∧
    (notifyCount (handleStripeWebhook sampleOracle sampleEnv sampleSig "paid_event").trace = 1 ∧
     handleStripeWebhook sampleOracle
       (setKv sampleEnv (handleStripeWebhook sampleOracle sampleEnv sampleSig "paid_event").kv)
       sampleSig "paid_event" =
       ⟨200, alreadyProcessedBody, [Eff.kvGet ("processed_session_" ++ sampleSession.id)],
         (handleStripeWebhook sampleOracle sampleEnv sampleSig "paid_event").kv⟩) :=
  ⟨⟨by decide, by decide, by decide, by decide⟩,
   webhook_double_delivery_single_notification sampleOracle sampleEnv sampleSig "paid_event"
     sampleSession (by decide) (by decide) (by decide) (by decide) (by decide) (by decide)
     ⟨by decide, by decide⟩ (by intro pid h; simp [sampleOracle] at h)⟩

/-- C3: the idempotency marker is written only after the notification
flow has been attempted: whenever the trace of a webhook delivery
contains a marker put, the event was a paid completed session, the
notification flow completed without a propagated fault, and the trace
is exactly the lookup, then the full notification-flow effects, then
the put as the last effect. -/
theorem marker_written_only_after_notification (o : Oracle) (env : Env)
    (sig : Option String) (rawBody : String) (k v : String) (t : Nat)
    (hmem : Eff.kvPut k v t ∈ (handleStripeWebhook o env sig rawBody).trace) :
    ∃ s, o.jsonParse rawBody = some ⟨"checkout.session.completed", some s⟩ ∧
      s.payment_status = "paid" ∧
      k = "processed_session_" ++ s.id ∧ v = "processed" ∧ t = markerTtl ∧
      (handleSuccessfulPayment o env s).threw = false ∧
      (handleStripeWebhook o env sig rawBody).trace =
        Eff.kvGet k :: (handleSuccessfulPayment o env s).effs ++ [Eff.kvPut k v t] := by
  cases hv : signatureVerifies o env sig rawBody with
  | false =>
    obtain ⟨_, ht, _⟩ := handleStripeWebhook_unverified o env sig rawBody hv
    rw [ht] at hmem
    simp at hmem
  | true =>
    cases hp : o.jsonParse rawBody with
    | none =>
      obtain ⟨ts, sp, mac, h1, h2, h3⟩ := (signatureVerifies_true_iff o env sig rawBody).mp hv
      unfold handleStripeWebhook at hmem
      simp [h1, h2, h3, hp] at hmem
    | some ev =>
      rw [handleStripeWebhook_verified o env sig rawBody ev hv hp] at hmem ⊢
      obtain ⟨s, hev, hpaid, hfresh, hput, hk, hvv, htt, hthrew, htrace⟩ :=
        processEvent_put_mem o env ev k v t hmem
      exact ⟨s, congrArg some hev, hpaid, hk, hvv, htt, hthrew, htrace⟩

/-- Witness for C3: the sample paid delivery writes the marker, and its
trace has the put last, after the notification-flow effects. -/
theorem marker_written_only_after_notification_witness :
    Eff.kvPut "processed_session_cs_1" "processed" markerTtl ∈
      (handleStripeWebhook sampleOracle sampleEnv sampleSig "paid_event").trace ∧
    ∃ s, sampleOracle.jsonParse "paid_event" =
        some ⟨"checkout.session.completed", some s⟩ ∧
      s.payment_status = "paid" ∧
      "processed_session_cs_1" = "processed_session_" ++ s.id ∧
      "processed" = "processed" ∧ markerTtl = markerTtl ∧
      (handleSuccessfulPayment sampleOracle sampleEnv s).threw = false ∧
      (handleStripeWebhook sampleOracle sampleEnv sampleSig "paid_event").trace =
        Eff.kvGet "processed_session_cs_1" ::
          (handleSuccessfulPayment sampleOracle sampleEnv s).effs ++
          [Eff.kvPut "processed_session_cs_1" "processed" markerTtl] :=
  ⟨by decide,
   marker_written_only_after_notification sampleOracle sampleEnv sampleSig "paid_event"
     "processed_session_cs_1" "processed" markerTtl (by decide)⟩

/-- C8: when the chat-notification API answers with a non-success
status during a paid first-seen delivery, the failure is swallowed: the
webhook still returns HTTP 200 `received: true`, the idempotency marker
is still written, and the dispatch was attempted exactly once (never
retried). -/
theorem notification_failure_logged_only (o : Oracle) (env : Env)
    (sig : Option String) (rawBody : String) (s : Session)
    (hver : signatureVerifies o env sig rawBody = true)
    (hparse : o.jsonParse rawBody = some ⟨"checkout.session.completed", some s⟩)
    (hpaid : s.payment_status = "paid")
    (hfresh : kvLookup env.kv ("processed_session_" ++ s.id) = none)
    (hget : o.kvGetOk = true) (hput : o.kvPutOk = true)
    (hconf : truthyOS env.telegramBotToken = true ∧ truthyOS env.telegramChatId = true)
    (hfetch : ∀ pid, o.fetchPI pid ≠ .threw)
    (hfail : o.telegramOk = false) :
    (handleStripeWebhook o env sig rawBody).status = 200 ∧
    (handleStripeWebhook o env sig rawBody).body = receivedBody ∧
    kvLookup (handleStripeWebhook o env sig rawBody).kv
      ("processed_session_" ++ s.id) = some "processed" ∧
    notifyCount (handleStripeWebhook o env sig rawBody).trace = 1 := by
  have hthrew := handleSuccessfulPayment_threw_false o env s hfetch
  have hr : handleStripeWebhook o env sig rawBody =
      ⟨200, receivedBody,
        Eff.kvGet ("processed_session_" ++ s.id) ::
          (handleSuccessfulPayment o env s).effs ++
          [Eff.kvPut ("processed_session_" ++ s.id) "processed" markerTtl],
        kvInsert env.kv ("processed_session_" ++ s.id) "processed"⟩ := by
    rw [handleStripeWebhook_verified o env sig rawBody _ hver hparse]
    exact processEvent_paid_fresh o env s hget hput hfresh hpaid hthrew
  rw [hr]
  refine ⟨rfl, rfl, kvLookup_kvInsert_same _ _ _, ?_⟩
  have hn := handleSuccessfulPayment_notifyCount o env s hconf hfetch
  simp only [notifyCount] at hn ⊢
  simp [List.countP_cons, List.countP_append, isNotifyEff, hn]

/-- An oracle identical to the sample one except that the Telegram API
answers with a failure status. -/
def failingTelegramOracle : Oracle :=
  ⟨sampleOracle.hmacVerify, sampleOracle.jsonParse, sampleOracle.fetchPI,
   false, true, true, sampleOracle.formatDate⟩

/-- Witness for C8: the sample paid delivery with a failing Telegram
API still acknowledges with 200 and writes the marker. -/
theorem notification_failure_logged_only_witness :
    failingTelegramOracle.telegramOk = false ∧
    ((handleStripeWebhook failingTelegramOracle sampleEnv sampleSig "paid_event").status = 200 ∧
     (handleStripeWebhook failingTelegramOracle sampleEnv sampleSig "paid_event").body = receivedBody ∧
     kvLookup (handleStripeWebhook failingTelegramOracle sampleEnv sampleSig "paid_event").kv
       ("processed_session_" ++ sampleSession.id) = some "processed" ∧
     notifyCount (handleStripeWebhook failingTelegramOracle sampleEnv sampleSig "paid_event").trace = 1) :=
  ⟨by decide,
   notification_failure_logged_only failingTelegramOracle sampleEnv sampleSig "paid_event"
     sampleSession (by decide) (by decide) (by decide) (by decide) (by decide) (by decide)
     ⟨by decide, by decide⟩ (by intro pid h; simp [failingTelegramOracle, sampleOracle] at h)
     (by decide)⟩

/-- C4: a checkout-session creation request with any of amount,
currency, successUrl or cancelUrl missing or falsy gets HTTP 400 with
the JSON error body and makes no outbound call to the payment provider,
whichever field is missing. -/
theorem checkout_missing_field_400_no_call (stripe : StripeResult) (b : CheckoutBody)
    (h : truthy b.amount = false ∨ truthy b.currency = false ∨
         truthy b.successUrl = false ∨ truthy b.cancelUrl = false) :
    createCheckoutSession stripe (some b) = ⟨400, missingFieldsBody, []⟩ := by
  unfold createCheckoutSession
  rcases h with h | h | h | h <;> simp [h]

/-- A request body with the amount field absent. -/
def missingAmountBody : CheckoutBody :=
  ⟨none, some (.str "usd"), none,
   some (.str "https://ok.example"), some (.str "https://cancel.example")⟩

/-- Witness for C4: a request missing the amount. -/
theorem checkout_missing_field_400_no_call_witness :
    truthy missingAmountBody.amount = false ∧
    createCheckoutSession (.okResp "sess_1") (some missingAmountBody) =
      ⟨400, missingFieldsBody, []⟩ :=
  ⟨by decide,
   checkout_missing_field_400_no_call (.okResp "sess_1") missingAmountBody
     (Or.inl (by decide))⟩

/-- Whether a rational is an integer (the provider's minor-unit amounts
must be integers). -/
def isIntegerRat (q : ℚ) : Prop := ∃ n : ℤ, q = (n : ℚ)

/-- A request body declaring the fractional amount "10.999". -/
def fractionalBody : CheckoutBody :=
  ⟨some (.str "10.999"), some (.str "usd"), none,
   some (.str "https://ok.example"), some (.str "https://cancel.example")⟩

/-- Counterexample to C5: the accepted request with amount "10.999"
sends minor-unit amount 1099.9 upstream, which is not an integer — the
code multiplies the parsed float by 100 without truncation or
rounding. -/
theorem checkout_fractional_amount_not_integral :
    (createCheckoutSession (.okResp "sess_1") (some fractionalBody)).effs =
      [CheckoutEff.stripePost (some ((10999 : ℚ) / 10)) "usd" none] ∧
    ¬ isIntegerRat ((10999 : ℚ) / 10) := by
  constructor
  · have hp : parseFloatStr "10.999" =
        some ((1 : ℚ) * (((10999 : ℕ) : ℚ) / 10 ^ 3 * 10 ^ 0)) := rfl
    unfold createCheckoutSession fractionalBody
    simp only [truthy, parseFloatJs, hp]
    simp [CheckoutEff.stripePost.injEq]
    constructor
    · norm_num
    · decide
  · rintro ⟨n, hn⟩
    have h2 : (10999 : ℚ) = (n : ℚ) * 10 := by field_simp at hn; linarith
    have h3 : (10999 : ℤ) = n * 10 := by exact_mod_cast h2
    omega

/-- C5 (amended): for every valid donation request the minor-unit
amount sent to the provider equals the parsed declared amount times 100
exactly — but it is an integer only when the declared amount is a
multiple of one hundredth, not for every accepted amount. -/
theorem checkout_unit_amount_scaling (stripe : StripeResult) (b : CheckoutBody)
    (c : String) (q : ℚ)
    (hc : b.currency = some (.str c))
    (hv : truthy b.amount = true ∧ truthy b.currency = true ∧
          truthy b.successUrl = true ∧ truthy b.cancelUrl = true)
    (hq : parseFloatJs b.amount = some q) :
    (createCheckoutSession stripe (some b)).effs =
      [CheckoutEff.stripePost (some (q * 100)) (jsToLower c)
        (if truthy b.note then b.note else none)] := by
  obtain ⟨h1, h2, h3, h4⟩ := hv
  rw [hc] at h2
  unfold createCheckoutSession
  cases stripe <;> simp [h1, h2, h3, h4, hc, hq]

/-- A request body declaring amount 10. -/
def tenBody : CheckoutBody :=
  ⟨some (.num 10), some (.str "USD"), none,
   some (.str "https://ok.example"), some (.str "https://cancel.example")⟩

/-- Witness for C5: amount 10 yields upstream minor amount 10 × 100 =
1000 with lower-cased currency. -/
theorem checkout_unit_amount_scaling_witness :
    parseFloatJs tenBody.amount = some 10 ∧
    (createCheckoutSession (.okResp "sess_1") (some tenBody)).effs =
      [CheckoutEff.stripePost (some ((10 : ℚ) * 100)) (jsToLower "USD")
        (if truthy tenBody.note then tenBody.note else none)] ∧
    ((10 : ℚ) * 100 = 1000 ∧ jsToLower "USD" = "usd") :=
  ⟨rfl,
   checkout_unit_amount_scaling (.okResp "sess_1") tenBody "USD" 10 rfl
     ⟨by decide, by decide, by decide, by decide⟩ rfl,
   by norm_num, by decide⟩

/-- C9: when a non-empty donor note is interpolated into the
notification message, the message contains the escaped note between a
fixed prefix and suffix; in the escaped note every reserved MarkdownV2
character (`*`, `_`, `[`, `.`, `!`, …) is preceded by a backslash, and
removing the escaping recovers the literal note. -/
theorem donor_note_escaped_in_message (o : Oracle) (s : Session)
    (pi : Option PaymentIntent) (note : String)
    (hnote : donorNoteOf pi = note) (hne : note ≠ "") :
    ∃ pre post,
      buildTelegramMessage o s pi = pre ++ escapeMarkdownV2 note ++ post ∧
      allReservedEscaped (escapeMarkdownV2 note).data = true ∧
      unescapeMarkdownV2 (escapeMarkdownV2 note) = note := by
  subst hnote
  refine ⟨messageHeader o s pi ++ "\n*Note from Donor:* ", "\n" ++ dashLine,
    buildTelegramMessage_with_note o s pi hne, ?_, ?_⟩
  · unfold escapeMarkdownV2
    exact allReservedEscaped_escList _
  · unfold unescapeMarkdownV2 escapeMarkdownV2
    rw [unescList_escList]

/-- The sample payment intent carrying a donor note with reserved
characters. -/
def samplePI : Option PaymentIntent := some ⟨"pi_1", some "see you *soon*!"⟩

/-- Witness for C9 at a concrete note containing `*` and `!`. -/
theorem donor_note_escaped_in_message_witness :
    donorNoteOf samplePI = "see you *soon*!" ∧
    ∃ pre post,
      buildTelegramMessage sampleOracle sampleSession samplePI =
        pre ++ escapeMarkdownV2 "see you *soon*!" ++ post ∧
      allReservedEscaped (escapeMarkdownV2 "see you *soon*!").data = true ∧
      unescapeMarkdownV2 (escapeMarkdownV2 "see you *soon*!") = "see you *soon*!" :=
  ⟨by decide,
   donor_note_escaped_in_message sampleOracle sampleSession samplePI "see you *soon*!"
     (by decide) (by decide)⟩
